import Mathlib

/-!
Shallow embedding of the voice-capture-and-submit pipeline of the
Calendar_Agent repository (src/renderer.js, class VoiceInput together with
the module-level functions sendPrompt and addActivityItem; src/VoiceInput.js
agrees on the toggle guard).  The browser environment (microphone stream,
network, wall clock) is passed in as explicit outcome parameters; ghost
counters record the externally visible effects (streams acquired and
released, requests posted, recorder stop events fired).
-/

namespace CalendarAgent

/-- Rendered content of the response-container region.  renderer.js writes
either a loading placeholder, an agent-response div, or an error paragraph
into responseContainer.innerHTML. -/
inductive Render
  | empty
  | loading
  | agentResponse (msg : String)
  | errorMsg (msg : String)
  deriving DecidableEq

/-- State of the MediaRecorder object (mediaRecorder.state in renderer.js). -/
inductive RecorderState
  | recording
  | inactive
  deriving DecidableEq

/-- One entry of the activity log: addActivityItem renders a timestamp div
and a description div (renderer.js lines 372-393). -/
structure ActivityEntry where
  time : String
  description : String
  deriving DecidableEq

/-- The mutable state of the renderer: the VoiceInput instance fields
(isRecording, isProcessing, mediaRecorder, audioChunks), the DOM regions it
and sendPrompt write (promptInput.value, responseContainer, activityLog,
the visualizer), and ghost counters for effects on the environment. -/
structure AppState where
  /-- VoiceInput.isRecording -/
  isRecording : Bool
  /-- VoiceInput.isProcessing -/
  isProcessing : Bool
  /-- VoiceInput.mediaRecorder: none before the first session -/
  mediaRecorder : Option RecorderState
  /-- VoiceInput.audioChunks, abstracted to chunk identifiers -/
  audioChunks : List Nat
  /-- ghost: streams acquired by getUserMedia and not yet released by
  stream.getTracks().forEach(track.stop) -/
  heldStreams : Nat
  /-- ghost: recorder onstop events fired (each produces one audio blob) -/
  stopEvents : Nat
  /-- ghost: uploads posted to the backend speech endpoint -/
  speechRequests : Nat
  /-- ghost: prompt bodies posted to the backend prompt endpoint -/
  promptRequests : List String
  /-- ghost: prompt submissions currently in flight -/
  pendingPrompts : Nat
  /-- promptInput.value -/
  promptInput : String
  /-- responseContainer contents -/
  response : Render
  /-- activityLog children, newest first (insertBefore firstChild) -/
  activityLog : List ActivityEntry
  /-- whether the audio visualizer is displayed -/
  visualizerShown : Bool
  deriving DecidableEq

/-- The state at page load: idle, no recorder, empty input and log. -/
def initState : AppState :=
  { isRecording := false
  , isProcessing := false
  , mediaRecorder := none
  , audioChunks := []
  , heldStreams := 0
  , stopEvents := 0
  , speechRequests := 0
  , promptRequests := []
  , pendingPrompts := 0
  , promptInput := ""
  , response := Render.empty
  , activityLog := []
  , visualizerShown := false }

/-- JavaScript truthiness of an optional string field of a JSON response:
absent and the empty string are falsy, any other string is truthy. -/
def strTruthy : Option String → Bool
  | none => false
  | some t => decide (t ≠ "")

/-- The JSON body returned by the backend speech endpoint:
text, optional prompt_response (carrying a message), optional error. -/
structure SpeechResponse where
  text : Option String
  prompt_response : Option String
  error : Option String
  deriving DecidableEq

/-- Outcome of awaiting window.api.processAudio: the promise either
rejects (thrown) or resolves with a JSON body. -/
inductive UploadResult
  | thrown (msg : String)
  | ok (r : SpeechResponse)
  deriving DecidableEq

/-- Outcome of awaiting window.api.sendPrompt: rejected, resolved with a
truthy error field, or resolved with a message. -/
inductive PromptResult
  | thrown (msg : String)
  | errorResp (e : String)
  | okResp (m : String)
  deriving DecidableEq

/-- ECMAScript String.prototype.trim, as called on promptInput.value in
sendPrompt: strips leading and trailing whitespace.  Written over the
character list so that it evaluates by kernel reduction. -/
def jsTrim (s : String) : String :=
  String.mk
    (((s.toList.dropWhile Char.isWhitespace).reverse.dropWhile
        Char.isWhitespace).reverse)

/-- addActivityItem (renderer.js 372-393): builds one entry from the
current wall-clock reading and the description and inserts it before the
first child of the log, so the new entry becomes the head. -/
def addActivityItem (now desc : String) (log : List ActivityEntry) :
    List ActivityEntry :=
  { time := now, description := desc } :: log

/-- How a startRecording attempt resolves in the environment:
getUserMedia rejects (permission denied), getUserMedia succeeds but a later
setup step throws before recording begins, or everything succeeds. -/
inductive StartOutcome
  | permissionDenied
  | errorAfterAcquire
  | success
  deriving DecidableEq

/-- VoiceInput.startRecording (renderer.js 61-109).
On success: getUserMedia acquires one stream, a MediaRecorder is created
over it, audioChunks is reset, recording starts, isRecording is set, the
visualizer is shown.  Both failure outcomes land in the catch block, which
only logs and alerts: in particular, when the throw happens after
getUserMedia succeeded, the acquired stream is NOT released there. -/
def startRecording (o : StartOutcome) (s : AppState) : AppState :=
  match o with
  | StartOutcome.permissionDenied => s
  | StartOutcome.errorAfterAcquire =>
      { s with heldStreams := s.heldStreams + 1 }
  | StartOutcome.success =>
      { s with heldStreams := s.heldStreams + 1
             , mediaRecorder := some RecorderState.recording
             , audioChunks := []
             , isRecording := true
             , visualizerShown := true }

/-- VoiceInput.stopRecording (renderer.js 111-125).
Returns immediately when no recorder exists or the recorder is inactive.
Otherwise stops the recorder (queueing one onstop event), clears
isRecording, and stops every track of the stream, releasing the device. -/
def stopRecording (s : AppState) : AppState :=
  match s.mediaRecorder with
  | none => s
  | some RecorderState.inactive => s
  | some RecorderState.recording =>
      { s with mediaRecorder := some RecorderState.inactive
             , isRecording := false
             , heldStreams := s.heldStreams - 1
             , stopEvents := s.stopEvents + 1 }

/-- VoiceInput.toggleRecording (renderer.js 51-59): returns at once while
isProcessing; otherwise starts when not recording, stops when recording. -/
def toggleRecording (o : StartOutcome) (s : AppState) : AppState :=
  if s.isProcessing then s
  else if s.isRecording then stopRecording s
  else startRecording o s

/-- The ondataavailable handler (renderer.js 80-82): pushes a chunk. -/
def dataAvailable (chunk : Nat) (s : AppState) : AppState :=
  { s with audioChunks := s.audioChunks ++ [chunk] }

/-- First half of VoiceInput.processAudio (renderer.js 127-136): sets
isProcessing and posts the blob to the speech endpoint. -/
def processAudioStart (s : AppState) : AppState :=
  { s with isProcessing := true, speechRequests := s.speechRequests + 1 }

/-- Second half of VoiceInput.processAudio (renderer.js 138-168): the
response handling and the finally block.  A truthy text field takes the
success branch: the input field receives the text, and either two entries
(voice prompt, agent) or one entry (transcribed) are logged depending on
prompt_response.  Otherwise a truthy error field renders an error; a body
with neither does nothing.  The finally block always clears isProcessing
and hides and empties the visualizer. -/
def processAudioFinish (res : UploadResult) (now : String) (s : AppState) :
    AppState :=
  let s1 :=
    match res with
    | UploadResult.thrown msg =>
        { s with response := Render.errorMsg ("Error processing audio: " ++ msg) }
    | UploadResult.ok r =>
        if strTruthy r.text then
          let t := r.text.getD ""
          let s2 := { s with promptInput := t }
          match r.prompt_response with
          | some m =>
              { s2 with response := Render.agentResponse m
                      , activityLog :=
                          (addActivityItem now ("Agent: \"" ++ m ++ "\"")
                            (addActivityItem now ("Voice prompt: \"" ++ t ++ "\"")
                              s2.activityLog)) }
          | none =>
              { s2 with activityLog :=
                  (addActivityItem now ("Transcribed: \"" ++ t ++ "\"")
                    s2.activityLog) }
        else if strTruthy r.error then
          { s with response := Render.errorMsg ("Error: " ++ r.error.getD "") }
        else s
  { s1 with isProcessing := false, visualizerShown := false }

/-- VoiceInput.processAudio as one call: upload, then response handling. -/
def processAudio (res : UploadResult) (now : String) (s : AppState) :
    AppState :=
  processAudioFinish res now (processAudioStart s)

/-- First half of sendPrompt (renderer.js 339-351): trims the input field;
a blank prompt returns before any request.  Otherwise the loading
placeholder is rendered and the trimmed prompt is posted. -/
def sendPromptStart (s : AppState) : AppState :=
  if jsTrim s.promptInput = "" then s
  else
    { s with response := Render.loading
           , promptRequests := s.promptRequests ++ [jsTrim s.promptInput]
           , pendingPrompts := s.pendingPrompts + 1 }

/-- Second half of sendPrompt (renderer.js 351-369), for the submission
that posted the trimmed prompt p.  A truthy error field renders the error
and returns (input untouched).  A thrown request renders the error in the
catch block (input untouched).  Only the success path renders the agent
message, logs two entries, and clears the input field. -/
def sendPromptFinish (res : PromptResult) (p now : String) (s : AppState) :
    AppState :=
  let s0 := { s with pendingPrompts := s.pendingPrompts - 1 }
  match res with
  | PromptResult.thrown msg =>
      { s0 with response := Render.errorMsg ("Error: " ++ msg) }
  | PromptResult.errorResp e =>
      { s0 with response := Render.errorMsg ("Error: " ++ e) }
  | PromptResult.okResp m =>
      { s0 with response := Render.agentResponse m
              , activityLog :=
                  (addActivityItem now ("Agent: \"" ++ m ++ "\"")
                    (addActivityItem now ("Prompt: \"" ++ p ++ "\"")
                      s0.activityLog))
              , promptInput := "" }

/-! Sample states used to instantiate the theorems at concrete inputs. -/

/-- A state in which a capture is being processed. -/
def procSample : AppState := { initState with isProcessing := true }

/-- A state in the middle of a recording session. -/
def recSample : AppState :=
  { initState with isRecording := true
                 , mediaRecorder := some RecorderState.recording
                 , heldStreams := 1
                 , visualizerShown := true }

/-- A state with a typed, not yet submitted prompt. -/
def typedSample : AppState := { initState with promptInput := "hi" }

/-- A state with one prompt submission in flight and the input still
holding the typed text (sendPrompt clears it only on success). -/
def busySample : AppState :=
  { initState with promptInput := "hi"
                 , promptRequests := ["hi"]
                 , pendingPrompts := 1
                 , response := Render.loading }

/-- A state with a whitespace-only prompt typed. -/
def blankSample : AppState := { initState with promptInput := "   " }

/-- A state with a draft typed, as in the spec scenario. -/
def draftSample : AppState :=
  { initState with promptInput := "reschedule lunch" }

/-- A speech response carrying text and a prompt_response message. -/
def respBoth : SpeechResponse :=
  { text := some "move lunch", prompt_response := some "Done", error := none }

/-- A speech response carrying only text. -/
def respTextOnly : SpeechResponse :=
  { text := some "move lunch", prompt_response := none, error := none }

/-- A speech response carrying only an error field. -/
def respErr : SpeechResponse :=
  { text := none, prompt_response := none, error := some "unintelligible audio" }

/-- A speech response with truthy text AND a truthy error field. -/
def respConflict : SpeechResponse :=
  { text := some "hi", prompt_response := none, error := some "boom" }

/-- A speech response with neither truthy text nor truthy error. -/
def respNeither : SpeechResponse :=
  { text := none, prompt_response := none, error := none }

/-- Claim C1: while the session is processing, toggleRecording leaves the
state unchanged; while it is recording, toggleRecording performs the stop
path rather than starting a second capture (no new stream is acquired, no
upload is issued); startRecording is only reached from a state that is
neither recording nor processing.  Hence at most one recording session is
active at a time. -/
theorem toggleRecording_session_guard (s : AppState) (o : StartOutcome) :
    (s.isProcessing = true → toggleRecording o s = s) ∧
    (s.isProcessing = false → s.isRecording = true →
      toggleRecording o s = stopRecording s ∧
      (toggleRecording o s).heldStreams ≤ s.heldStreams ∧
      (toggleRecording o s).speechRequests = s.speechRequests) ∧
    (s.isProcessing = false → s.isRecording = false →
      toggleRecording o s = startRecording o s) := by
  refine ⟨?_, ?_, ?_⟩
  · intro hp
    simp [toggleRecording, hp]
  · intro hp hr
    have hstop : toggleRecording o s = stopRecording s := by
      simp [toggleRecording, hp, hr]
    refine ⟨hstop, ?_, ?_⟩
    · rw [hstop]
      unfold stopRecording
      rcases hmr : s.mediaRecorder with _ | st
      · simp
      · cases st <;> simp
    · rw [hstop]
      unfold stopRecording
      rcases hmr : s.mediaRecorder with _ | st
      · simp
      · cases st <;> simp
  · intro hp hr
    simp [toggleRecording, hp, hr]

/-- Witness for C1: the guard at a processing state and a recording state. -/
theorem toggleRecording_session_guard_witness :
    toggleRecording StartOutcome.success procSample = procSample ∧
    toggleRecording StartOutcome.success recSample = stopRecording recSample :=
  ⟨(toggleRecording_session_guard procSample StartOutcome.success).1 rfl,
   (((toggleRecording_session_guard recSample StartOutcome.success).2.1 rfl rfl)).1⟩

/-- Claim C2: evaluation of startRecording at the failing input.  When
getUserMedia succeeds and a later setup step throws (the errorAfterAcquire
outcome), the catch block of renderer.js lines 105-108 only logs and
alerts: the session ends up idle (not recording, not processing) while the
acquired stream is still held, so the device is NOT released on this exit
path, contrary to the claim. -/
theorem startRecording_error_leaks_device :
    (startRecording StartOutcome.errorAfterAcquire initState).isRecording = false ∧
    (startRecording StartOutcome.errorAfterAcquire initState).isProcessing = false ∧
    (startRecording StartOutcome.errorAfterAcquire initState).heldStreams = 1 := by
  refine ⟨rfl, rfl, rfl⟩

/-- Claim C6: a blank (empty or whitespace-only) prompt is rejected
locally: sendPrompt returns before rendering anything, posting anything,
or logging anything, so the whole state is unchanged. -/
theorem sendPrompt_rejects_blank (s : AppState)
    (h : jsTrim s.promptInput = "") :
    sendPromptStart s = s := by
  simp [sendPromptStart, h]

/-- Witness for C6: submitting the whitespace-only draft changes nothing. -/
theorem sendPrompt_rejects_blank_witness :
    jsTrim blankSample.promptInput = "" ∧
    sendPromptStart blankSample = blankSample :=
  ⟨by decide, sendPrompt_rejects_blank blankSample (by decide)⟩

/-- Claim C7: stopRecording while idle (no recorder yet, or the recorder
already inactive) returns at once: the state is unchanged, so no stop
event fires, no audio artifact is produced and no upload occurs. -/
theorem stopRecording_idle_noop (s : AppState)
    (h : s.mediaRecorder = none ∨ s.mediaRecorder = some RecorderState.inactive) :
    stopRecording s = s := by
  rcases h with h | h <;> simp [stopRecording, h]

/-- Witness for C7: stopping at the initial (idle) state is a no-op. -/
theorem stopRecording_idle_noop_witness :
    stopRecording initState = initState :=
  stopRecording_idle_noop initState (Or.inl rfl)

/-- Claim C9: addActivityItem builds exactly one timestamped entry and
inserts it at the head of the log; the previous entries are exactly the
tail, unremoved and unmodified; iterating n calls grows the log by n, with
no capacity cap. -/
theorem addActivityItem_appends (now d : String) (log : List ActivityEntry) :
    addActivityItem now d log = { time := now, description := d } :: log ∧
    (addActivityItem now d log).length = log.length + 1 ∧
    ∀ n : Nat,
      ((fun l => addActivityItem now d l)^[n] log).length = log.length + n := by
  refine ⟨rfl, rfl, ?_⟩
  intro n
  induction n with
  | zero => rfl
  | succ k ih =>
      rw [Function.iterate_succ_apply']
      show (({ time := now, description := d } : ActivityEntry) ::
        ((fun l => addActivityItem now d l)^[k] log)).length = log.length + (k + 1)
      rw [List.length_cons, ih, Nat.add_assoc]

/-- Claim C3, counterexample: sendPrompt has no in-flight guard.  From a
state with the prompt "hi" typed, a first submit posts one request and
leaves it pending; a second submit issued while the first is still in
flight posts a second request, so the prompt concern IS in loading twice
concurrently — the claim as stated is false for the prompt concern. -/
theorem sendPrompt_double_submission :
    (sendPromptStart typedSample).pendingPrompts = 1 ∧
    (sendPromptStart (sendPromptStart typedSample)).pendingPrompts = 2 ∧
    (sendPromptStart (sendPromptStart typedSample)).promptRequests =
      ["hi", "hi"] := by
  refine ⟨by decide, by decide, by decide⟩

/-- Claim C3, amended: the capture concern is guarded (toggleRecording is
a no-op while a capture is processing, so no second capture can enter
loading), but the prompt concern has no guard: whenever the trimmed input
is non-blank, a submit issued while a previous submission is still in
flight does start a second concurrent submission. -/
theorem loading_guard_per_concern :
    (∀ (s : AppState) (o : StartOutcome), s.isProcessing = true →
      toggleRecording o s = s) ∧
    (∀ s : AppState, 1 ≤ s.pendingPrompts → jsTrim s.promptInput ≠ "" →
      (sendPromptStart s).pendingPrompts = s.pendingPrompts + 1 ∧
      (sendPromptStart s).promptRequests =
        s.promptRequests ++ [jsTrim s.promptInput]) := by
  constructor
  · intro s o hp
    simp [toggleRecording, hp]
  · intro s _ hblank
    constructor <;> simp [sendPromptStart, hblank]

/-- Witness for the amended C3 at concrete states. -/
theorem loading_guard_per_concern_witness :
    toggleRecording StartOutcome.success procSample = procSample ∧
    (sendPromptStart busySample).pendingPrompts = 2 ∧
    (sendPromptStart busySample).promptRequests = ["hi", "hi"] := by
  refine ⟨loading_guard_per_concern.1 procSample StartOutcome.success rfl, ?_, ?_⟩
  · exact (loading_guard_per_concern.2 busySample (by decide) (by decide)).1
  · exact (loading_guard_per_concern.2 busySample (by decide) (by decide)).2

/-- Claim C4: a successful transcription whose body carries truthy text
and a prompt_response produces exactly two activity entries (agent message
on top of the voice-prompt entry); one carrying only text produces exactly
one activity entry, writes the text into the prompt input field, and posts
nothing to the prompt endpoint (no auto-submission) — in fact neither
shape of success posts to the prompt endpoint. -/
theorem processAudio_success_entries (s : AppState) (r : SpeechResponse)
    (now t : String) (ht : r.text = some t) (hne : t ≠ "") :
    (∀ m, r.prompt_response = some m →
      (processAudio (UploadResult.ok r) now s).activityLog =
        { time := now, description := "Agent: \"" ++ m ++ "\"" } ::
        { time := now, description := "Voice prompt: \"" ++ t ++ "\"" } ::
          s.activityLog ∧
      (processAudio (UploadResult.ok r) now s).promptInput = t ∧
      (processAudio (UploadResult.ok r) now s).promptRequests =
        s.promptRequests) ∧
    (r.prompt_response = none →
      (processAudio (UploadResult.ok r) now s).activityLog =
        { time := now, description := "Transcribed: \"" ++ t ++ "\"" } ::
          s.activityLog ∧
      (processAudio (UploadResult.ok r) now s).promptInput = t ∧
      (processAudio (UploadResult.ok r) now s).promptRequests =
        s.promptRequests) := by
  constructor
  · intro m hm
    refine ⟨?_, ?_, ?_⟩ <;>
      simp [processAudio, processAudioFinish, processAudioStart, strTruthy,
        ht, hm, hne, addActivityItem]
  · intro hm
    refine ⟨?_, ?_, ?_⟩ <;>
      simp [processAudio, processAudioFinish, processAudioStart, strTruthy,
        ht, hm, hne, addActivityItem]

/-- Witness for C4 at concrete responses and the initial state. -/
theorem processAudio_success_entries_witness :
    (processAudio (UploadResult.ok respBoth) "t0" initState).activityLog =
      [{ time := "t0", description := "Agent: \"Done\"" },
       { time := "t0", description := "Voice prompt: \"move lunch\"" }] ∧
    (processAudio (UploadResult.ok respTextOnly) "t0" initState).activityLog =
      [{ time := "t0", description := "Transcribed: \"move lunch\"" }] ∧
    (processAudio (UploadResult.ok respTextOnly) "t0" initState).promptInput =
      "move lunch" ∧
    (processAudio (UploadResult.ok respTextOnly) "t0" initState).promptRequests =
      [] := by
  refine ⟨?_, ?_, ?_, ?_⟩
  · exact ((processAudio_success_entries initState respBoth "t0" "move lunch"
      rfl (by decide)).1 "Done" rfl).1
  · exact ((processAudio_success_entries initState respTextOnly "t0" "move lunch"
      rfl (by decide)).2 rfl).1
  · exact ((processAudio_success_entries initState respTextOnly "t0" "move lunch"
      rfl (by decide)).2 rfl).2.1
  · exact ((processAudio_success_entries initState respTextOnly "t0" "move lunch"
      rfl (by decide)).2 rfl).2.2

/-- Claim C5: a failed prompt submission — thrown request or error
response — leaves the input field exactly as typed; only the success path
clears it.  In particular a failed submission of the draft
"reschedule lunch" leaves the field equal to "reschedule lunch". -/
theorem sendPrompt_preserves_input_on_failure (s : AppState)
    (p now m e : String) :
    (sendPromptFinish (PromptResult.thrown m) p now s).promptInput =
      s.promptInput ∧
    (sendPromptFinish (PromptResult.errorResp e) p now s).promptInput =
      s.promptInput ∧
    (sendPromptFinish (PromptResult.okResp m) p now s).promptInput = "" ∧
    (s.promptInput = "reschedule lunch" →
      (sendPromptFinish (PromptResult.errorResp e) p now
        (sendPromptStart s)).promptInput = "reschedule lunch") := by
  refine ⟨rfl, rfl, rfl, ?_⟩
  intro h
  have hs : (sendPromptStart s).promptInput = s.promptInput := by
    unfold sendPromptStart
    split <;> rfl
  calc (sendPromptFinish (PromptResult.errorResp e) p now
          (sendPromptStart s)).promptInput
      = (sendPromptStart s).promptInput := rfl
    _ = s.promptInput := hs
    _ = "reschedule lunch" := h

/-- Witness for C5: the draft survives a failed submission end to end. -/
theorem sendPrompt_preserves_input_on_failure_witness :
    draftSample.promptInput = "reschedule lunch" ∧
    (sendPromptFinish (PromptResult.errorResp "backend down")
        "reschedule lunch" "t0"
        (sendPromptStart draftSample)).promptInput = "reschedule lunch" :=
  ⟨rfl, (sendPrompt_preserves_input_on_failure draftSample "reschedule lunch"
      "t0" "x" "backend down").2.2.2 rfl⟩

/-- Claim C8: on a backend body whose text is falsy and whose error field
is truthy, processAudio renders an error message containing the backend
string, adds no activity entry, and the finally block returns the pipeline
to idle (processing flag cleared, visualizer hidden); the same
return-to-idle and log preservation hold when the upload itself throws. -/
theorem processAudio_error_recovery (s : AppState) (r : SpeechResponse)
    (now e msg : String) (htext : strTruthy r.text = false)
    (herr : r.error = some e) (hne : e ≠ "") :
    ((processAudio (UploadResult.ok r) now s).response =
        Render.errorMsg ("Error: " ++ e) ∧
     (∃ pre, (processAudio (UploadResult.ok r) now s).response =
        Render.errorMsg (pre ++ e)) ∧
     (processAudio (UploadResult.ok r) now s).activityLog = s.activityLog ∧
     (processAudio (UploadResult.ok r) now s).isProcessing = false ∧
     (processAudio (UploadResult.ok r) now s).visualizerShown = false) ∧
    ((processAudio (UploadResult.thrown msg) now s).isProcessing = false ∧
     (processAudio (UploadResult.thrown msg) now s).visualizerShown = false ∧
     (processAudio (UploadResult.thrown msg) now s).activityLog =
       s.activityLog) := by
  have herrT : strTruthy (some e) = true := by
    simp [strTruthy, hne]
  have hbody : processAudioFinish (UploadResult.ok r) now (processAudioStart s) =
      { processAudioStart s with
          response := Render.errorMsg ("Error: " ++ e)
        , isProcessing := false
        , visualizerShown := false } := by
    simp [processAudioFinish, htext, herr, herrT]
  have hmain : processAudio (UploadResult.ok r) now s =
      { processAudioStart s with
          response := Render.errorMsg ("Error: " ++ e)
        , isProcessing := false
        , visualizerShown := false } := hbody
  refine ⟨⟨?_, ⟨"Error: ", ?_⟩, ?_, ?_, ?_⟩, rfl, rfl, rfl⟩ <;>
    simp [hmain, processAudioStart]

/-- Witness for C8 at the spec scenario body and a thrown upload. -/
theorem processAudio_error_recovery_witness :
    (processAudio (UploadResult.ok respErr) "t0" initState).response =
      Render.errorMsg ("Error: " ++ "unintelligible audio") ∧
    (processAudio (UploadResult.ok respErr) "t0" initState).activityLog = [] ∧
    (processAudio (UploadResult.ok respErr) "t0" initState).isProcessing =
      false ∧
    (processAudio (UploadResult.thrown "net down") "t0" initState).isProcessing =
      false := by
  have h := processAudio_error_recovery initState respErr "t0"
    "unintelligible audio" "net down" (by decide) rfl (by decide)
  exact ⟨h.1.1, h.1.2.2.1, h.1.2.2.2.1, h.2.1⟩

/-- Claim C10: branch precedence in processAudio.  With truthy text the
success branch runs and the error field is never consulted (the outcome is
the same as with the error field removed, and the rendered response is the
agent message when prompt_response is present, otherwise the previous
contents); the error branch runs only with falsy text and truthy error;
with neither, nothing is rendered and nothing is logged, yet the finally
block still returns the pipeline to idle. -/
theorem processAudio_branch_precedence (s : AppState) (r : SpeechResponse)
    (now : String) :
    (strTruthy r.text = true →
      processAudio (UploadResult.ok r) now s =
        processAudio (UploadResult.ok { r with error := none }) now s ∧
      (processAudio (UploadResult.ok r) now s).response =
        (match r.prompt_response with
         | some m => Render.agentResponse m
         | none => s.response)) ∧
    (strTruthy r.text = false → strTruthy r.error = true →
      (processAudio (UploadResult.ok r) now s).response =
        Render.errorMsg ("Error: " ++ r.error.getD "")) ∧
    (strTruthy r.text = false → strTruthy r.error = false →
      processAudio (UploadResult.ok r) now s =
        { s with speechRequests := s.speechRequests + 1
               , isProcessing := false
               , visualizerShown := false }) := by
  refine ⟨?_, ?_, ?_⟩
  · intro ht
    constructor
    · rcases hm : r.prompt_response with _ | m <;>
        simp [processAudio, processAudioFinish, processAudioStart, ht, hm]
    · rcases hm : r.prompt_response with _ | m <;>
        simp [processAudio, processAudioFinish, processAudioStart, ht, hm]
  · intro ht he
    simp [processAudio, processAudioFinish, processAudioStart, ht, he]
  · intro ht he
    simp [processAudio, processAudioFinish, processAudioStart, ht, he]

/-- Witness for C10: a body with both truthy text and a truthy error takes
the success path with the error ignored; the pure-error body renders the
error; the empty body only resets the pipeline. -/
theorem processAudio_branch_precedence_witness :
    processAudio (UploadResult.ok respConflict) "t0" initState =
      processAudio (UploadResult.ok { respConflict with error := none })
        "t0" initState ∧
    (processAudio (UploadResult.ok respErr) "t0" initState).response =
      Render.errorMsg ("Error: " ++ respErr.error.getD "") ∧
    processAudio (UploadResult.ok respNeither) "t0" initState =
      { initState with speechRequests := 1
                     , isProcessing := false
                     , visualizerShown := false } := by
  refine ⟨?_, ?_, ?_⟩
  · exact ((processAudio_branch_precedence initState respConflict "t0").1
      (by decide)).1
  · exact (processAudio_branch_precedence initState respErr "t0").2.1
      (by decide) (by decide)
  · exact (processAudio_branch_precedence initState respNeither "t0").2.2
      (by decide) (by decide)

end CalendarAgent
